import Mathlib

/-!
# RingBuffer (C) — shallow embedding and verification

Embedding of `src/Sources/C/RingBuffer.c` and
`src/Sources/C/include/RingBuffer.h` (baberthal/RingBuffer).

Modelling conventions:
* `size_t` values are `Nat`; unsigned wraparound is made explicit with
  `% size_t_mod` (`size_t_mod = 2 ^ 64`) exactly where the C expression can
  wrap (`capacity - end - 1`, `start + amount`, `end + amount`).
* C undefined behaviour is `none`: division or modulo by zero
  (`RingBuffer_available_data` divides by `start` and reduces modulo
  `capacity`), and a `memcpy` that touches bytes outside the `capacity`-byte
  storage region.
* The byte storage is a `List Nat` of length `capacity`; `memcpy` into the
  buffer is `memcpyAt`, `memcpy` out of it is `readBytes`.
* The allocator is modelled as infallible (the C code never checks the
  `calloc` results either); `memcpy` never returns `NULL` for the valid
  pointers used here, so the dead `result == NULL` branches of
  `RingBuffer_write` / `RingBuffer_read` are not modelled.
* `(size_t)-1`, the sentinel the C code returns on failure, is `size_t_max`.

The structure fields mirror `struct RingBuffer_s` in order; the C field
`end` is named `end_` because `end` is a Lean keyword.
-/

/-- `2 ^ 64`: the modulus of `size_t` arithmetic. -/
def size_t_mod : Nat := 2 ^ 64

/-- `(size_t)-1 = SIZE_MAX`, the sentinel returned by failing operations. -/
def size_t_max : Nat := size_t_mod - 1

/-- The `RingBuffer` struct: byte storage, capacity, and the two cursors. -/
structure RingBuffer where
  buffer : List Nat
  capacity : Nat
  start : Nat
  end_ : Nat
deriving DecidableEq, Repr

/-- `memcpy(storage + pos, data, data.length)` restricted to the storage
list: writes the bytes of `data` at positions `pos, pos+1, …`.  Callers
guard the in-bounds condition first, mirroring that an out-of-bounds
`memcpy` is undefined behaviour. -/
def memcpyAt : List Nat → Nat → List Nat → List Nat
  | storage, _, [] => storage
  | storage, pos, d :: ds => memcpyAt (storage.set pos d) (pos + 1) ds

/-- `memcpy(target, storage + pos, amount)`: the `amount` bytes of the
storage list starting at position `pos`. -/
def readBytes (storage : List Nat) (pos amount : Nat) : List Nat :=
  (List.range amount).map (fun i => storage.getD (pos + i) 0)

/-- `RingBuffer_create(capacity)`: `calloc` a zeroed struct, set
`capacity`, `start = end = 0`, and `calloc(capacity, 1)` zeroed storage.
The C code performs no check of `capacity` (in particular `0` is accepted)
and no check of the `calloc` results. -/
def RingBuffer_create (capacity : Nat) : RingBuffer :=
  { buffer := List.replicate capacity 0
    capacity := capacity
    start := 0
    end_ := 0 }

/-- `RingBuffer_available_data`: `return buffer->end % buffer->capacity /
buffer->start;` — i.e. `(end % capacity) / start`.  Modulo by
`capacity = 0` or division by `start = 0` is undefined behaviour in C,
hence `none`. -/
def RingBuffer_available_data (b : RingBuffer) : Option Nat :=
  if b.capacity = 0 ∨ b.start = 0 then none
  else some (b.end_ % b.capacity / b.start)

/-- `RingBuffer_available_space`: `return buffer->capacity - buffer->end -
1;` in wrapping `size_t` arithmetic.  Note the formula never consults
`start`. -/
def RingBuffer_available_space (b : RingBuffer) : Nat :=
  (b.capacity + size_t_mod - b.end_ - 1) % size_t_mod

/-- `RingBuffer_empty`: `available_data == 0` (undefined when
`available_data` is). -/
def RingBuffer_empty (b : RingBuffer) : Option Bool :=
  (RingBuffer_available_data b).map (· = 0)

/-- `RingBuffer_full`: `available_space == 0`. -/
def RingBuffer_full (b : RingBuffer) : Bool :=
  RingBuffer_available_space b = 0

/-- `buffer->start = buffer->end = 0`, the normalisation both `write` and
`read` perform when they detect emptiness. -/
def normalizeEmpty (b : RingBuffer) : RingBuffer :=
  { b with start := 0, end_ := 0 }

/-- `Ringbuffer_commit_write`: `buffer->end = (buffer->end + amount) %
buffer->capacity;` (`none` on the undefined modulo by `capacity = 0`). -/
def Ringbuffer_commit_write (b : RingBuffer) (amount : Nat) : Option RingBuffer :=
  if b.capacity = 0 then none
  else some { b with end_ := (b.end_ + amount) % size_t_mod % b.capacity }

/-- `RingBuffer_commit_read`: `buffer->start = (buffer->start + amount) %
buffer->capacity;` (`none` on the undefined modulo by `capacity = 0`). -/
def RingBuffer_commit_read (b : RingBuffer) (amount : Nat) : Option RingBuffer :=
  if b.capacity = 0 then none
  else some { b with start := (b.start + amount) % size_t_mod % b.capacity }

/-- `RingBuffer_write(buffer, data, length)` with `length = data.length`.
Steps, in the order of the C source: normalise when `available_data == 0`;
fail with the `(size_t)-1` sentinel when `length > available_space`;
`memcpy` the data at offset `end` (undefined when that copy leaves the
storage region); `Ringbuffer_commit_write(length)`; return `length`.
The result is `(returned size_t, final buffer state)`. -/
def RingBuffer_write (b : RingBuffer) (data : List Nat) :
    Option (Nat × RingBuffer) :=
  match RingBuffer_available_data b with
  | none => none
  | some ad =>
    let b1 := if ad = 0 then normalizeEmpty b else b
    if data.length > RingBuffer_available_space b1 then
      some (size_t_max, b1)
    else if b1.end_ + data.length > b1.capacity then
      none
    else
      match Ringbuffer_commit_write
          { b1 with buffer := memcpyAt b1.buffer b1.end_ data } data.length with
      | none => none
      | some b2 => some (data.length, b2)

/-- `RingBuffer_read(buffer, target, amount)`.  Steps, in the order of the
C source: fail with the `(size_t)-1` sentinel when
`amount > available_data`; `memcpy` `amount` bytes from offset `start`
into `target` (undefined when that read leaves the storage region);
`RingBuffer_commit_read(amount)`; normalise when `end == start`; return
`amount`.  The result is `(returned size_t, final buffer state, bytes
copied into target)`; a failing call copies nothing, hence `[]`. -/
def RingBuffer_read (b : RingBuffer) (amount : Nat) :
    Option (Nat × RingBuffer × List Nat) :=
  match RingBuffer_available_data b with
  | none => none
  | some ad =>
    if amount > ad then
      some (size_t_max, b, [])
    else if b.start + amount > b.capacity then
      none
    else
      match RingBuffer_commit_read b amount with
      | none => none
      | some b1 =>
        let b2 := if b1.end_ = b1.start then normalizeEmpty b1 else b1
        some (amount, b2, readBytes b.buffer b.start amount)

/-- `RingBuffer_clear`: `RingBuffer_commit_read(buffer,
RingBuffer_available_data(buffer));`. -/
def RingBuffer_clear (b : RingBuffer) : Option RingBuffer :=
  match RingBuffer_available_data b with
  | none => none
  | some ad => RingBuffer_commit_read b ad

/-- The spec's formula for `availableData()`: `0` for the normalised empty
buffer, otherwise `(end - start + capacity) mod capacity` (over the
cursor range `0 ≤ start, end < capacity` the sum never goes negative; the
spec additionally maps a zero result back to `capacity` when the buffer is
independently known non-empty, a case that does not arise at the points
where this definition is compared with the code). -/
def specAvailableData (capacity start end_ : Nat) : Nat :=
  if start = 0 ∧ end_ = 0 then 0
  else (end_ + capacity - start) % capacity

/-- One API operation, for stating preservation across every mutating
call. -/
inductive Op where
  | write (data : List Nat)
  | read (amount : Nat)
  | clear
deriving Repr

/-- The state transition of one operation (`none` on undefined
behaviour). -/
def step (b : RingBuffer) : Op → Option RingBuffer
  | .write data => (RingBuffer_write b data).map (·.2)
  | .read amount => (RingBuffer_read b amount).map (fun p => p.2.1)
  | .clear => RingBuffer_clear b

/-! ## General lemmas about the operations -/

theorem available_data_some (b : RingBuffer) (ad : Nat)
    (h : RingBuffer_available_data b = some ad) :
    b.capacity ≠ 0 ∧ b.start ≠ 0 ∧ ad = b.end_ % b.capacity / b.start := by
  unfold RingBuffer_available_data at h
  split at h
  · simp at h
  · rename_i hcond
    push_neg at hcond
    simp only [Option.some.injEq] at h
    exact ⟨hcond.1, hcond.2, h.symm⟩

theorem commit_write_some (b : RingBuffer) (amount : Nat) (hc : b.capacity ≠ 0) :
    Ringbuffer_commit_write b amount =
      some { b with end_ := (b.end_ + amount) % size_t_mod % b.capacity } := by
  unfold Ringbuffer_commit_write
  rw [if_neg hc]

theorem commit_read_some (b : RingBuffer) (amount : Nat) (hc : b.capacity ≠ 0) :
    RingBuffer_commit_read b amount =
      some { b with start := (b.start + amount) % size_t_mod % b.capacity } := by
  unfold RingBuffer_commit_read
  rw [if_neg hc]

theorem write_ub (b : RingBuffer) (data : List Nat)
    (h : RingBuffer_available_data b = none) : RingBuffer_write b data = none := by
  unfold RingBuffer_write
  rw [h]

theorem read_ub (b : RingBuffer) (amount : Nat)
    (h : RingBuffer_available_data b = none) : RingBuffer_read b amount = none := by
  unfold RingBuffer_read
  rw [h]

theorem clear_ub (b : RingBuffer)
    (h : RingBuffer_available_data b = none) : RingBuffer_clear b = none := by
  unfold RingBuffer_clear
  rw [h]

theorem write_eq_body (b : RingBuffer) (data : List Nat) (ad : Nat)
    (had : RingBuffer_available_data b = some ad) :
    RingBuffer_write b data =
      (let b1 := if ad = 0 then normalizeEmpty b else b
       if data.length > RingBuffer_available_space b1 then some (size_t_max, b1)
       else if b1.end_ + data.length > b1.capacity then none
       else match Ringbuffer_commit_write
           { b1 with buffer := memcpyAt b1.buffer b1.end_ data } data.length with
         | none => none
         | some b2 => some (data.length, b2)) := by
  unfold RingBuffer_write
  rw [had]

theorem read_eq_body (b : RingBuffer) (amount ad : Nat)
    (had : RingBuffer_available_data b = some ad) :
    RingBuffer_read b amount =
      (if amount > ad then some (size_t_max, b, [])
       else if b.start + amount > b.capacity then none
       else match RingBuffer_commit_read b amount with
         | none => none
         | some b1 =>
           let b2 := if b1.end_ = b1.start then normalizeEmpty b1 else b1
           some (amount, b2, readBytes b.buffer b.start amount)) := by
  unfold RingBuffer_read
  rw [had]

theorem clear_eq_body (b : RingBuffer) (ad : Nat)
    (had : RingBuffer_available_data b = some ad) :
    RingBuffer_clear b = RingBuffer_commit_read b ad := by
  unfold RingBuffer_clear
  rw [had]

theorem write_fail_of_space_lt (b : RingBuffer) (data : List Nat) (ad : Nat)
    (had : RingBuffer_available_data b = some ad)
    (hsp : RingBuffer_available_space (if ad = 0 then normalizeEmpty b else b) <
      data.length) :
    RingBuffer_write b data =
      some (size_t_max, if ad = 0 then normalizeEmpty b else b) := by
  unfold RingBuffer_write
  rw [had]
  simp [hsp]

theorem read_fail_of_data_lt (b : RingBuffer) (amount ad : Nat)
    (had : RingBuffer_available_data b = some ad) (h : ad < amount) :
    RingBuffer_read b amount = some (size_t_max, b, []) := by
  unfold RingBuffer_read
  rw [had]
  simp [h]

/-! ## Claims -/

/-- C1: the claim states `availableData()` is computed without any division,
as 0 for the normalised empty buffer and `(end - start + capacity) mod
capacity` otherwise.  The code instead computes `end % capacity / start`,
a division by the `start` cursor: on a freshly created buffer
(`start = 0`) that division is undefined behaviour, and on a buffer with
`capacity = 10, start = 2, end = 5` it returns 2 where the claimed formula
gives 3 valid bytes. -/
theorem C1_availableData_divides_by_start :
    RingBuffer_available_data (RingBuffer_create 10) = none ∧
    RingBuffer_available_data ⟨List.replicate 10 0, 10, 2, 5⟩ = some 2 ∧
    specAvailableData 10 2 5 = 3 := by decide

/-- C2: the claim states `availableSpace() = capacity - 1 - availableData()`.
The code computes `capacity - end - 1`, never consulting `start`: on a
buffer with `capacity = 10, start = 2, end = 5` it returns 4, while
`capacity - 1 - availableData()` is 6 with the spec's availableData (3) and
7 with the code's own availableData (2). -/
theorem C2_availableSpace_ignores_start :
    RingBuffer_available_space ⟨List.replicate 10 0, 10, 2, 5⟩ = 4 ∧
    10 - 1 - specAvailableData 10 2 5 = 6 ∧
    RingBuffer_available_data ⟨List.replicate 10 0, 10, 2, 5⟩ = some 2 ∧
    (4 : Nat) ≠ 6 ∧ (4 : Nat) ≠ 10 - 1 - 2 := by decide

/-- C3 counterexample: a write that fails the space check is not always a
no-op.  On `capacity = 4, start = 3, end = 1` the buffer's
`available_space` is 2, so a 4-byte write fails with the sentinel — but
`available_data` is 0, so the pre-check normalisation has already reset
`start = end = 0`: the failing call mutated the cursors. -/
theorem C3_counterexample :
    RingBuffer_available_space ⟨List.replicate 4 0, 4, 3, 1⟩ < 4 ∧
    RingBuffer_write ⟨List.replicate 4 0, 4, 3, 1⟩ [9, 9, 9, 9] =
      some (size_t_max, ⟨List.replicate 4 0, 4, 0, 0⟩) := by decide

/-- C3 (amended): when `length` exceeds the available space of the
(possibly normalised) buffer, `write` fails with the `(size_t)-1` sentinel
and performs no mutation beyond the pre-check normalisation: the stored
bytes and the capacity are untouched, and when `availableData()` was
non-zero the state is exactly the state before the call. -/
theorem C3_failing_write_mutates_only_normalization (b : RingBuffer)
    (data : List Nat) (ad : Nat)
    (had : RingBuffer_available_data b = some ad)
    (hsp : RingBuffer_available_space (if ad = 0 then normalizeEmpty b else b) <
      data.length) :
    RingBuffer_write b data =
      some (size_t_max, if ad = 0 then normalizeEmpty b else b) ∧
    (if ad = 0 then normalizeEmpty b else b).buffer = b.buffer ∧
    (if ad = 0 then normalizeEmpty b else b).capacity = b.capacity ∧
    (ad ≠ 0 → (if ad = 0 then normalizeEmpty b else b) = b) := by
  refine ⟨write_fail_of_space_lt b data ad had hsp, ?_, ?_, ?_⟩
  · split <;> rfl
  · split <;> rfl
  · intro h0
    rw [if_neg h0]

theorem C3_witness :
    (RingBuffer_available_data ⟨List.replicate 4 0, 4, 3, 1⟩ = some 0 ∧
      RingBuffer_available_space (normalizeEmpty ⟨List.replicate 4 0, 4, 3, 1⟩) < 4) ∧
    (RingBuffer_write ⟨List.replicate 4 0, 4, 3, 1⟩ [9, 9, 9, 9] =
        some (size_t_max, normalizeEmpty ⟨List.replicate 4 0, 4, 3, 1⟩) ∧
      (normalizeEmpty ⟨List.replicate 4 0, 4, 3, 1⟩).buffer =
        (⟨List.replicate 4 0, 4, 3, 1⟩ : RingBuffer).buffer ∧
      (normalizeEmpty ⟨List.replicate 4 0, 4, 3, 1⟩).capacity =
        (⟨List.replicate 4 0, 4, 3, 1⟩ : RingBuffer).capacity ∧
      ((0 : Nat) ≠ 0 →
        normalizeEmpty ⟨List.replicate 4 0, 4, 3, 1⟩ = ⟨List.replicate 4 0, 4, 3, 1⟩)) :=
  ⟨⟨by decide, by decide⟩,
    C3_failing_write_mutates_only_normalization ⟨List.replicate 4 0, 4, 3, 1⟩
      [9, 9, 9, 9] 0 (by decide) (by decide)⟩

/-- C4: the claim states `availableData() + availableSpace() = capacity - 1`
after every operation of every in-bounds create/write/read/clear sequence.
The very first write after `create(8)` already evaluates `available_data`
with `start = 0`, a division by zero (undefined behaviour, `none` in the
model); and on a buffer with `capacity = 10, start = 2, end = 5` the two
queries return 2 and 4, whose sum 6 is not `capacity - 1 = 9`. -/
theorem C4_accounting_invariant_violated :
    RingBuffer_write (RingBuffer_create 8) [65, 66, 67, 68, 69] = none ∧
    RingBuffer_available_data ⟨List.replicate 10 0, 10, 2, 5⟩ = some 2 ∧
    RingBuffer_available_space ⟨List.replicate 10 0, 10, 2, 5⟩ = 4 ∧
    2 + 4 ≠ 10 - 1 := by decide

/-- C5: the claim states that writing `B` with `|B| ≤ availableSpace()` and
then reading `|B|` bytes yields `B`.  On a freshly created buffer of
capacity 8 the 5-byte write satisfies the precondition (`availableSpace()`
is 7) but already divides by `start = 0` inside `available_data`
(undefined behaviour): the round trip has no defined result, let alone
`B`. -/
theorem C5_roundtrip_breaks :
    5 ≤ RingBuffer_available_space (RingBuffer_create 8) ∧
    RingBuffer_write (RingBuffer_create 8) [65, 66, 67, 68, 69] = none := by decide

/-- C6: a read of more bytes than `available_data` reports fails with the
`(size_t)-1` sentinel, copies nothing into the target, and returns the
buffer state — `start`, `end`, capacity and stored bytes — exactly
unchanged. -/
theorem C6_read_insufficient_is_noop (b : RingBuffer) (amount ad : Nat)
    (had : RingBuffer_available_data b = some ad) (h : ad < amount) :
    RingBuffer_read b amount = some (size_t_max, b, []) :=
  read_fail_of_data_lt b amount ad had h

theorem C6_witness :
    (RingBuffer_available_data ⟨List.replicate 10 0, 10, 2, 5⟩ = some 2 ∧
      (2 : Nat) < 3) ∧
    RingBuffer_read ⟨List.replicate 10 0, 10, 2, 5⟩ 3 =
      some (size_t_max, ⟨List.replicate 10 0, 10, 2, 5⟩, []) :=
  ⟨⟨by decide, by decide⟩,
    C6_read_insufficient_is_noop ⟨List.replicate 10 0, 10, 2, 5⟩ 3 2
      (by decide) (by decide)⟩

/-- C7: the claim states `clear()` drains all valid data and leaves the
empty normalised state `start = end = 0`, and that two clears equal one.
The code only advances `start` by the (mis-computed) `available_data` and
never touches `end`: on `capacity = 10, start = 2, end = 5` a clear leaves
`start = 4, end = 5` with `available_data` still 1, and a second clear
moves the state further, to `start = 5, end = 5`. -/
theorem C7_clear_leaves_data_behind :
    RingBuffer_clear ⟨List.replicate 10 0, 10, 2, 5⟩ =
      some ⟨List.replicate 10 0, 10, 4, 5⟩ ∧
    RingBuffer_available_data ⟨List.replicate 10 0, 10, 4, 5⟩ = some 1 ∧
    RingBuffer_clear ⟨List.replicate 10 0, 10, 4, 5⟩ =
      some ⟨List.replicate 10 0, 10, 5, 5⟩ := by decide

/-- C8: the claim states `create(0)` must fail with `InvalidCapacityError`.
The code has no failure path at all: `create(0)` silently returns a buffer
with `capacity = 0` and an empty storage region.  (The `capacity > 0` half
of the claim does hold: `create(5)` yields five zeroed bytes and
`start = end = 0`.) -/
theorem C8_create_accepts_zero_capacity :
    RingBuffer_create 0 = ⟨[], 0, 0, 0⟩ ∧
    RingBuffer_create 5 = ⟨List.replicate 5 0, 5, 0, 0⟩ := by decide

/-- C9: for a buffer of positive capacity the cursor bounds
`start < capacity` and `end < capacity` hold on the freshly created buffer
and are preserved by every write, read, and clear that completes (every
cursor assignment in the code is either 0 or a value reduced
`% capacity`). -/
theorem C9_cursor_bounds (b : RingBuffer) (op : Op) (b' : RingBuffer)
    (hcap : 0 < b.capacity) (hs : b.start < b.capacity) (he : b.end_ < b.capacity)
    (hstep : step b op = some b') :
    ((RingBuffer_create b.capacity).start < b.capacity ∧
      (RingBuffer_create b.capacity).end_ < b.capacity) ∧
    b'.capacity = b.capacity ∧ b'.start < b.capacity ∧ b'.end_ < b.capacity := by
  refine ⟨⟨hcap, hcap⟩, ?_⟩
  cases op with
  | write data =>
    simp only [step, Option.map_eq_some'] at hstep
    obtain ⟨⟨r, b2⟩, hw, hb⟩ := hstep
    cases hb
    cases had : RingBuffer_available_data b with
    | none => rw [write_ub b data had] at hw; cases hw
    | some ad =>
      obtain ⟨hc, -, -⟩ := available_data_some b ad had
      rw [write_eq_body b data ad had] at hw
      set b1 := if ad = 0 then normalizeEmpty b else b with hb1
      have hc1 : b1.capacity = b.capacity := by rw [hb1]; split <;> rfl
      have hs1 : b1.start < b.capacity := by
        rw [hb1]; split
        · exact hcap
        · exact hs
      have he1 : b1.end_ < b.capacity := by
        rw [hb1]; split
        · exact hcap
        · exact he
      by_cases hsp : data.length > RingBuffer_available_space b1
      · rw [if_pos hsp] at hw
        simp only [Option.some.injEq, Prod.mk.injEq] at hw
        obtain ⟨-, hb2⟩ := hw
        subst hb2
        exact ⟨hc1, hs1, he1⟩
      · rw [if_neg hsp] at hw
        by_cases hob : b1.end_ + data.length > b1.capacity
        · rw [if_pos hob] at hw; cases hw
        · rw [if_neg hob] at hw
          rw [commit_write_some { b1 with buffer := memcpyAt b1.buffer b1.end_ data }
              data.length (show b1.capacity ≠ 0 by rw [hc1]; exact hc)] at hw
          simp only [Option.some.injEq, Prod.mk.injEq] at hw
          obtain ⟨-, hb2⟩ := hw
          subst hb2
          have hlt : (b1.end_ + data.length) % size_t_mod % b1.capacity < b1.capacity :=
            Nat.mod_lt _ (by rw [hc1]; exact hcap)
          exact ⟨hc1, hs1, hlt.trans_eq hc1⟩
  | read amount =>
    simp only [step, Option.map_eq_some'] at hstep
    obtain ⟨⟨r, b2, out⟩, hr, hb⟩ := hstep
    cases hb
    cases had : RingBuffer_available_data b with
    | none => rw [read_ub b amount had] at hr; cases hr
    | some ad =>
      obtain ⟨hc, -, -⟩ := available_data_some b ad had
      rw [read_eq_body b amount ad had] at hr
      by_cases hgt : amount > ad
      · rw [if_pos hgt] at hr
        simp only [Option.some.injEq, Prod.mk.injEq] at hr
        obtain ⟨-, hb2, -⟩ := hr
        subst hb2
        exact ⟨rfl, hs, he⟩
      · rw [if_neg hgt] at hr
        by_cases hob : b.start + amount > b.capacity
        · rw [if_pos hob] at hr; cases hr
        · rw [if_neg hob] at hr
          rw [commit_read_some b amount hc] at hr
          simp only [Option.some.injEq, Prod.mk.injEq] at hr
          obtain ⟨-, hb2, -⟩ := hr
          subst hb2
          have hstart : (b.start + amount) % size_t_mod % b.capacity < b.capacity :=
            Nat.mod_lt _ hcap
          split
          · exact ⟨rfl, hcap, hcap⟩
          · exact ⟨rfl, hstart, he⟩
  | clear =>
    simp only [step] at hstep
    cases had : RingBuffer_available_data b with
    | none => rw [clear_ub b had] at hstep; cases hstep
    | some ad =>
      obtain ⟨hc, -, -⟩ := available_data_some b ad had
      rw [clear_eq_body b ad had, commit_read_some b ad hc] at hstep
      simp only [Option.some.injEq] at hstep
      subst hstep
      exact ⟨rfl, Nat.mod_lt _ hcap, he⟩

theorem C9_witness :
    ((0 : Nat) < 10 ∧ (2 : Nat) < 10 ∧ (5 : Nat) < 10 ∧
      step ⟨List.replicate 10 0, 10, 2, 5⟩ Op.clear =
        some ⟨List.replicate 10 0, 10, 4, 5⟩) ∧
    (((RingBuffer_create 10).start < 10 ∧ (RingBuffer_create 10).end_ < 10) ∧
      (⟨List.replicate 10 0, 10, 4, 5⟩ : RingBuffer).capacity = 10 ∧
      (⟨List.replicate 10 0, 10, 4, 5⟩ : RingBuffer).start < 10 ∧
      (⟨List.replicate 10 0, 10, 4, 5⟩ : RingBuffer).end_ < 10) :=
  ⟨⟨by decide, by decide, by decide, by decide⟩,
    C9_cursor_bounds ⟨List.replicate 10 0, 10, 2, 5⟩ Op.clear
      ⟨List.replicate 10 0, 10, 4, 5⟩ (by decide) (by decide) (by decide) (by decide)⟩

/-- C10: every failing write (insufficient space) and every failing read
(insufficient data) returns the same sentinel value
`(size_t)-1 = 2 ^ 64 - 1`; nothing in the returned value distinguishes the
error kinds of the spec's taxonomy. -/
theorem C10_failure_sentinel (b c : RingBuffer) (data : List Nat)
    (amount ad1 ad2 : Nat)
    (h1 : RingBuffer_available_data b = some ad1)
    (hsp : RingBuffer_available_space (if ad1 = 0 then normalizeEmpty b else b) <
      data.length)
    (h2 : RingBuffer_available_data c = some ad2)
    (hrd : ad2 < amount) :
    (RingBuffer_write b data).map Prod.fst = some size_t_max ∧
    (RingBuffer_read c amount).map Prod.fst = some size_t_max ∧
    size_t_max = 2 ^ 64 - 1 := by
  rw [write_fail_of_space_lt b data ad1 h1 hsp,
    read_fail_of_data_lt c amount ad2 h2 hrd]
  exact ⟨rfl, rfl, rfl⟩

theorem C10_witness :
    (RingBuffer_available_data ⟨List.replicate 4 0, 4, 3, 1⟩ = some 0 ∧
      RingBuffer_available_space (normalizeEmpty ⟨List.replicate 4 0, 4, 3, 1⟩) < 4 ∧
      RingBuffer_available_data ⟨List.replicate 10 0, 10, 2, 5⟩ = some 2 ∧
      (2 : Nat) < 3) ∧
    ((RingBuffer_write ⟨List.replicate 4 0, 4, 3, 1⟩ [9, 9, 9, 9]).map Prod.fst =
        some size_t_max ∧
      (RingBuffer_read ⟨List.replicate 10 0, 10, 2, 5⟩ 3).map Prod.fst =
        some size_t_max ∧
      size_t_max = 2 ^ 64 - 1) :=
  ⟨⟨by decide, by decide, by decide, by decide⟩,
    C10_failure_sentinel ⟨List.replicate 4 0, 4, 3, 1⟩ ⟨List.replicate 10 0, 10, 2, 5⟩
      [9, 9, 9, 9] 3 0 2 (by decide) (by decide) (by decide) (by decide)⟩
